import Mathlib

/-!
Verification development for the budget-wise personal-finance application.

The embedded code comes from two places in the repository:

* the SQL migration that defines the `recurring_transactions` table together
  with the stored procedures `calculate_next_occurrence` and
  `process_recurring_transactions`;
* the client data-access hook `useBudgetData.ts`, whose `addTransaction` and
  `deleteTransaction` maintain the denormalized `spent` column of budgets, and
  whose `addRecurringTransaction` seeds a template's `next_occurrence`.

Calendar dates are modelled as year/month/day triples of naturals with the
Gregorian month lengths; date plus interval follows PostgreSQL semantics
(day intervals step one calendar day at a time; month and year intervals keep
the day-of-month and clamp it to the length of the target month).  Monetary
amounts are exact `NUMERIC` values in the store; they are modelled as `Int`
(the operations under verification use only addition, subtraction and a floor
at zero, which behave identically over any exact numeric type).
-/

deriving instance DecidableEq for Except

namespace BudgetWise

/-- A calendar date.  Years are proleptic-Gregorian and non-negative (the
application stores dates such as 2025-07-01; BC dates are out of range). -/
structure Date where
  year : Nat
  month : Nat
  day : Nat
deriving DecidableEq, Repr, Inhabited

/-- Injective encoding of a date into `Nat` that orders valid dates
chronologically (month ≤ 12 < 16 and day ≤ 31 < 32). -/
def Date.key (d : Date) : Nat := d.year * 512 + d.month * 32 + d.day

/-- Chronological order on dates (as used by SQL `<=` on `DATE` values). -/
def Date.le (a b : Date) : Prop := a.key ≤ b.key

/-- Strict chronological order on dates. -/
def Date.lt (a b : Date) : Prop := a.key < b.key

instance (a b : Date) : Decidable (Date.le a b) := by
  unfold Date.le
  infer_instance

instance (a b : Date) : Decidable (Date.lt a b) := by
  unfold Date.lt
  infer_instance

/-- Boolean date comparison, the executable form of SQL `a <= b`. -/
def Date.ble (a b : Date) : Bool := decide (a.key ≤ b.key)

/-- Gregorian leap-year rule. -/
def isLeapYear (y : Nat) : Bool :=
  (y % 4 == 0 && y % 100 != 0) || (y % 400 == 0)

/-- Number of days of month `m` in year `y` (months are numbered 1..12). -/
def daysInMonth (m y : Nat) : Nat :=
  if m = 2 then (if isLeapYear y then 29 else 28)
  else if m = 4 ∨ m = 6 ∨ m = 9 ∨ m = 11 then 30
  else 31

/-- A valid calendar date: month in 1..12 and day in 1..(length of month). -/
def Date.Valid (d : Date) : Prop :=
  1 ≤ d.month ∧ d.month ≤ 12 ∧ 1 ≤ d.day ∧ d.day ≤ daysInMonth d.month d.year

instance (d : Date) : Decidable d.Valid := by
  unfold Date.Valid; infer_instance

/-- The calendar day after `d`. -/
def Date.succDay (d : Date) : Date :=
  if d.day < daysInMonth d.month d.year then ⟨d.year, d.month, d.day + 1⟩
  else if d.month < 12 then ⟨d.year, d.month + 1, 1⟩
  else ⟨d.year + 1, 1, 1⟩

/-- The calendar day before `d`. -/
def Date.predDay (d : Date) : Date :=
  if 1 < d.day then ⟨d.year, d.month, d.day - 1⟩
  else if 1 < d.month then ⟨d.year, d.month - 1, daysInMonth (d.month - 1) d.year⟩
  else ⟨d.year - 1, 12, 31⟩

/-- `d + n days`. -/
def Date.addDays : Date → Nat → Date
  | d, 0 => d
  | d, n + 1 => d.succDay.addDays n

/-- `d - n days`. -/
def Date.subDays : Date → Nat → Date
  | d, 0 => d
  | d, n + 1 => d.predDay.subDays n

/-- `d + n months` with PostgreSQL semantics: advance the month (carrying
into the year) and clamp the day-of-month to the target month's length. -/
def Date.addMonths (d : Date) (n : Nat) : Date :=
  let total := d.year * 12 + (d.month - 1) + n
  let y := total / 12
  let m := total % 12 + 1
  ⟨y, m, min d.day (daysInMonth m y)⟩

/-- `d - n months`, clamping the day-of-month like `addMonths`. -/
def Date.subMonths (d : Date) (n : Nat) : Date :=
  let total := d.year * 12 + (d.month - 1) - n
  let y := total / 12
  let m := total % 12 + 1
  ⟨y, m, min d.day (daysInMonth m y)⟩

/-- `d + n years` with PostgreSQL semantics (Feb 29 clamps to Feb 28 in a
non-leap target year). -/
def Date.addYears (d : Date) (n : Nat) : Date :=
  ⟨d.year + n, d.month, min d.day (daysInMonth d.month (d.year + n))⟩

/-- `d - n years`, clamping like `addYears`. -/
def Date.subYears (d : Date) (n : Nat) : Date :=
  ⟨d.year - n, d.month, min d.day (daysInMonth d.month (d.year - n))⟩

/-- Date plus a possibly negative number of days (`DATE + n * INTERVAL '1 day'`). -/
def Date.shiftDays (d : Date) (n : Int) : Date :=
  if 0 ≤ n then d.addDays n.toNat else d.subDays (-n).toNat

/-- Date plus a possibly negative number of months. -/
def Date.shiftMonths (d : Date) (n : Int) : Date :=
  if 0 ≤ n then d.addMonths n.toNat else d.subMonths (-n).toNat

/-- Date plus a possibly negative number of years. -/
def Date.shiftYears (d : Date) (n : Int) : Date :=
  if 0 ≤ n then d.addYears n.toNat else d.subYears (-n).toNat

/-- Embedding of the stored procedure `public.calculate_next_occurrence`
from the recurring-transactions migration: a `CASE` over the frequency text,
adding `frequency_value` days, weeks, months or years, with an `ELSE` branch
that returns the input date unchanged. -/
def calculate_next_occurrence (current_date : Date) (frequency : String)
    (frequency_value : Int) : Date :=
  if frequency = "daily" then current_date.shiftDays frequency_value
  else if frequency = "weekly" then current_date.shiftDays (7 * frequency_value)
  else if frequency = "monthly" then current_date.shiftMonths frequency_value
  else if frequency = "yearly" then current_date.shiftYears frequency_value
  else current_date

/-! ## Entities -/

/-- Transaction type, the SQL `CHECK (type IN ('income', 'expense'))`. -/
inductive TxType where
  | income
  | expense
deriving DecidableEq, Repr, Inhabited

/-- A row of the `transactions` table (description is `TEXT NOT NULL`).
`id` 0 stands for a store-assigned id that the inserting code never chooses. -/
structure Transaction where
  id : Nat
  ttype : TxType
  amount : Int
  category : String
  description : String
  date : Date
deriving DecidableEq, Repr, Inhabited

/-- A row of the `budgets` table; `spent` is the denormalized running total. -/
structure Budget where
  id : Nat
  category : String
  limit : Int
  spent : Int
  period : String
deriving DecidableEq, Repr, Inhabited

/-- A row of the `recurring_transactions` table (a recurring template). -/
structure RecurringTransaction where
  id : Nat
  name : String
  ttype : TxType
  amount : Int
  category : String
  description : Option String
  frequency : String
  frequency_value : Int
  start_date : Date
  end_date : Option Date
  next_occurrence : Date
  is_active : Bool
deriving DecidableEq, Repr, Inhabited

/-! ## The due-template scanner (`public.process_recurring_transactions`) -/

/-- The scanner's `WHERE` clause: `is_active = true AND next_occurrence <=
CURRENT_DATE AND (end_date IS NULL OR next_occurrence <= end_date)`. -/
def isDue (today : Date) (t : RecurringTransaction) : Bool :=
  t.is_active && Date.ble t.next_occurrence today &&
    (match t.end_date with
     | none => true
     | some e => Date.ble t.next_occurrence e)

/-- The transaction the scanner inserts for a due template: type, amount and
category copied, `COALESCE(description, name)`, dated at `next_occurrence`. -/
def materializeTransaction (t : RecurringTransaction) : Transaction :=
  { id := 0
    ttype := t.ttype
    amount := t.amount
    category := t.category
    description := t.description.getD t.name
    date := t.next_occurrence }

/-- The scanner's `UPDATE`: the template's `next_occurrence` becomes
`calculate_next_occurrence(rec.next_occurrence, rec.frequency,
rec.frequency_value)` — the reference date is the template's current pointer. -/
def advanceTemplate (t : RecurringTransaction) : RecurringTransaction :=
  { t with next_occurrence :=
      calculate_next_occurrence t.next_occurrence t.frequency t.frequency_value }

/-- The loop body of `process_recurring_transactions` over the selected rows.
`fails` models the store rejecting a transaction insert (e.g. a constraint
violation).  The plpgsql function has no `EXCEPTION` handler, so the first
failing insert aborts the whole function and the enclosing statement rolls
back every effect; this is modelled by returning `Except.error` (carrying the
failing template) with no new state. -/
def processScan (fails : Transaction → Bool) (today : Date) :
    List RecurringTransaction →
    Except RecurringTransaction (List RecurringTransaction × List Transaction × Nat)
  | [] => .ok ([], [], 0)
  | t :: rest =>
    if isDue today t then
      if fails (materializeTransaction t) then .error t
      else
        match processScan fails today rest with
        | .error e => .error e
        | .ok (ts, txs, n) =>
            .ok (advanceTemplate t :: ts, materializeTransaction t :: txs, n + 1)
    else
      match processScan fails today rest with
      | .error e => .error e
      | .ok (ts, txs, n) => .ok (t :: ts, txs, n)

/-- Embedding of the stored procedure `public.process_recurring_transactions`:
scan the templates, insert one transaction per due template, advance each due
template's pointer, and return the processed count.  On a failed insert the
whole call errors and the store is left unchanged (single-transaction
rollback). -/
def process_recurring_transactions (fails : Transaction → Bool) (today : Date)
    (templates : List RecurringTransaction) (transactions : List Transaction) :
    Except RecurringTransaction (List RecurringTransaction × List Transaction × Nat) :=
  match processScan fails today templates with
  | .error e => .error e
  | .ok (ts, txs, n) => .ok (ts, transactions ++ txs, n)

/-- A store in which every insert succeeds. -/
def noFail : Transaction → Bool := fun _ => false

/-- The effect of one scan on one template: advance it exactly when due. -/
def scanStep (today : Date) (t : RecurringTransaction) : RecurringTransaction :=
  if isDue today t then advanceTemplate t else t

/-- A sequence of scan invocations (one per scan date), as seen by one
template. -/
def runScans (days : List Date) (t : RecurringTransaction) : RecurringTransaction :=
  days.foldl (fun t d => scanStep d t) t

/-! ## The client data-access hook (`useBudgetData.ts`) -/

/-- The slice of the hook's state that the transaction/budget operations
touch. -/
structure BudgetState where
  transactions : List Transaction
  budgets : List Budget
deriving DecidableEq, Repr, Inhabited

/-- Embedding of the hook's `addTransaction` (authenticated success path):
prepend the inserted transaction; if it is an expense, look up the first
budget whose category matches (`budgets.find`), add the amount to its
`spent`, and write that new value to every budget of that category. -/
def addTransaction (s : BudgetState) (tx : Transaction) : BudgetState :=
  let s1 : BudgetState := { s with transactions := tx :: s.transactions }
  if tx.ttype = TxType.expense then
    match s.budgets.find? (fun b => b.category == tx.category) with
    | some currentBudget =>
      let newSpent := currentBudget.spent + tx.amount
      { s1 with budgets := s1.budgets.map (fun b =>
          if b.category == tx.category then { b with spent := newSpent } else b) }
    | none => s1
  else s1

/-- Observable side effects of `deleteTransaction`: the store calls it issues
and the toast it reports. -/
inductive Effect where
  | storeDeleteTransaction (id : Nat)
  | storeUpdateBudgetSpent (category : String) (spent : Int)
  | toastSuccess
  | toastError
deriving DecidableEq, Repr

/-- Embedding of the hook's `deleteTransaction` (authenticated success path).
An id absent from the loaded list returns immediately: no store call, no state
change, no toast.  Otherwise the transaction is deleted; if it was an expense
and a budget matches its category, `spent` becomes
`max 0 (spent - amount)` on every budget of that category. -/
def deleteTransaction (s : BudgetState) (id : Nat) : BudgetState × List Effect :=
  match s.transactions.find? (fun t => t.id == id) with
  | none => (s, [])
  | some transaction =>
    let s1 : BudgetState :=
      { s with transactions := s.transactions.filter (fun t => t.id != id) }
    if transaction.ttype = TxType.expense then
      match s1.budgets.find? (fun b => b.category == transaction.category) with
      | some currentBudget =>
        let newSpent := max 0 (currentBudget.spent - transaction.amount)
        ({ s1 with budgets := s1.budgets.map (fun b =>
             if b.category == transaction.category then { b with spent := newSpent } else b) },
         [.storeDeleteTransaction id,
          .storeUpdateBudgetSpent transaction.category newSpent,
          .toastSuccess])
      | none => (s1, [.storeDeleteTransaction id, .toastSuccess])
    else (s1, [.storeDeleteTransaction id, .toastSuccess])

/-- Embedding of the seeding step of the hook's `addRecurringTransaction`:
the client calls the `calculate_next_occurrence` RPC on the start date and
falls back to the start date itself when the RPC yields no data
(`next_occurrence: nextOccurrence || recurringTransaction.startDate`). -/
def seedNextOccurrence (startDate : Date) (frequency : String)
    (frequency_value : Int) (rpcOk : Bool) : Date :=
  if rpcOk then calculate_next_occurrence startDate frequency frequency_value
  else startDate

/-! ## Specification-side predicates and concrete sample data -/

/-- The four frequency strings accepted by the `CASE` in
`calculate_next_occurrence`. -/
def ValidFrequency (frequency : String) : Prop :=
  frequency = "daily" ∨ frequency = "weekly" ∨ frequency = "monthly" ∨
    frequency = "yearly"

instance (frequency : String) : Decidable (ValidFrequency frequency) := by
  unfold ValidFrequency
  infer_instance

/-- The spec's selection predicate, written from the spec's words: template is
`isActive = true` AND `nextOccurrence <= today` AND (`endDate` is unset OR
`nextOccurrence <= endDate`).  Compared with the scanner's `isDue`. -/
def specSelected (today : Date) (t : RecurringTransaction) : Prop :=
  t.is_active = true ∧ Date.le t.next_occurrence today ∧
    ∀ e, t.end_date = some e → Date.le t.next_occurrence e

/-- Sample template: due on 2025-08-01 and rejected by the failing store
below (its materialized transaction has category "Rent"). -/
def rentTemplate : RecurringTransaction :=
  { id := 1, name := "Rent", ttype := .expense, amount := 1200,
    category := "Rent", description := none, frequency := "monthly",
    frequency_value := 1, start_date := ⟨2025, 1, 1⟩, end_date := none,
    next_occurrence := ⟨2025, 8, 1⟩, is_active := true }

/-- Sample template: due on 2025-08-01, accepted by every store used here. -/
def salaryTemplate : RecurringTransaction :=
  { id := 2, name := "Salary", ttype := .income, amount := 5000,
    category := "Salary", description := none, frequency := "monthly",
    frequency_value := 1, start_date := ⟨2025, 1, 1⟩, end_date := none,
    next_occurrence := ⟨2025, 8, 1⟩, is_active := true }

/-- Sample template: daily, with `next_occurrence` five days before the scan
date 2025-07-15. -/
def pastDailyTemplate : RecurringTransaction :=
  { id := 3, name := "Coffee", ttype := .expense, amount := 5,
    category := "Coffee", description := some "morning coffee",
    frequency := "daily", frequency_value := 1, start_date := ⟨2025, 7, 1⟩,
    end_date := none, next_occurrence := ⟨2025, 7, 10⟩, is_active := true }

/-- Sample template: active with `next_occurrence` past its `end_date`. -/
def endedTemplate : RecurringTransaction :=
  { id := 4, name := "Gym", ttype := .expense, amount := 30,
    category := "Health", description := none, frequency := "weekly",
    frequency_value := 1, start_date := ⟨2025, 6, 1⟩,
    end_date := some ⟨2025, 7, 5⟩, next_occurrence := ⟨2025, 7, 10⟩,
    is_active := true }

/-- Sample template: weekly, due at the scan date 2025-09-01, whose
materialized transaction has amount 99 (rejected by the failing store of the
corresponding witness). -/
def fee99Template : RecurringTransaction :=
  { id := 5, name := "Fee", ttype := .expense, amount := 99,
    category := "Fees", description := none, frequency := "weekly",
    frequency_value := 1, start_date := ⟨2025, 8, 1⟩, end_date := none,
    next_occurrence := ⟨2025, 9, 1⟩, is_active := true }

/-- Sample template: daily income template used to trace `next_occurrence`
across a sequence of scans. -/
def savingsTemplate : RecurringTransaction :=
  { id := 6, name := "Savings", ttype := .income, amount := 20,
    category := "Savings", description := none, frequency := "daily",
    frequency_value := 1, start_date := ⟨2025, 7, 1⟩, end_date := none,
    next_occurrence := ⟨2025, 7, 10⟩, is_active := true }

/-- Sample client state: one budget of 800 with 500 already spent in
category "Food", no transactions loaded. -/
def foodState : BudgetState :=
  { transactions := [],
    budgets := [{ id := 1, category := "Food", limit := 800, spent := 500,
                  period := "monthly" }] }

/-- Sample expense of 50 in category "Food". -/
def foodExpense : Transaction :=
  { id := 7, ttype := .expense, amount := 50, category := "Food",
    description := "groceries", date := ⟨2025, 7, 2⟩ }

/-- Sample client state for the missing-id deletion: one income transaction
with id 1 and one budget. -/
def incomeState : BudgetState :=
  { transactions := [{ id := 1, ttype := .income, amount := 3000,
                       category := "Salary", description := "salary",
                       date := ⟨2025, 7, 1⟩ }],
    budgets := [{ id := 2, category := "Food", limit := 800, spent := 0,
                  period := "monthly" }] }

/-! ## Date arithmetic lemmas -/

theorem daysInMonth_bounds (m y : Nat) :
    28 ≤ daysInMonth m y ∧ daysInMonth m y ≤ 31 := by
  unfold daysInMonth
  split
  · split <;> omega
  · split <;> omega

theorem Date.valid_mk {y m day : Nat} (h1 : 1 ≤ m) (h2 : m ≤ 12) (h3 : 1 ≤ day)
    (h4 : day ≤ daysInMonth m y) : Date.Valid ⟨y, m, day⟩ :=
  ⟨h1, h2, h3, h4⟩

theorem Date.valid_mk_iff {y m day : Nat} :
    Date.Valid ⟨y, m, day⟩ ↔ 1 ≤ m ∧ m ≤ 12 ∧ 1 ≤ day ∧ day ≤ daysInMonth m y :=
  Iff.rfl

theorem Date.key_mk (y m day : Nat) :
    Date.key ⟨y, m, day⟩ = y * 512 + m * 32 + day := rfl

theorem Date.succDay_valid (d : Date) (h : d.Valid) : d.succDay.Valid := by
  obtain ⟨h1, h2, h3, h4⟩ := h
  unfold Date.succDay
  split
  · exact Date.valid_mk h1 h2 (by omega) (by omega)
  · split
    · have hb := daysInMonth_bounds (d.month + 1) d.year
      exact Date.valid_mk (by omega) (by omega) (by omega) (by omega)
    · have hb := daysInMonth_bounds 1 (d.year + 1)
      exact Date.valid_mk (by omega) (by omega) (by omega) (by omega)

theorem Date.key_lt_succDay (d : Date) (h : d.Valid) : d.key < d.succDay.key := by
  obtain ⟨h1, h2, h3, h4⟩ := h
  have hb := daysInMonth_bounds d.month d.year
  unfold Date.succDay
  split
  · simp only [Date.key_mk, Date.key]
    omega
  · split <;> · simp only [Date.key_mk, Date.key]; omega

theorem Date.addDays_valid : ∀ (n : Nat) (d : Date), d.Valid → (d.addDays n).Valid
  | 0, _, h => h
  | n + 1, d, h => Date.addDays_valid n d.succDay (d.succDay_valid h)

theorem Date.key_le_addDays : ∀ (n : Nat) (d : Date), d.Valid →
    d.key ≤ (d.addDays n).key
  | 0, _, _ => Nat.le_refl _
  | n + 1, d, h =>
    Nat.le_trans (Nat.le_of_lt (d.key_lt_succDay h))
      (Date.key_le_addDays n d.succDay (d.succDay_valid h))

theorem Date.key_lt_addDays (n : Nat) (hn : 1 ≤ n) (d : Date) (h : d.Valid) :
    d.key < (d.addDays n).key := by
  obtain ⟨m, rfl⟩ : ∃ m, n = m + 1 := ⟨n - 1, by omega⟩
  calc d.key < d.succDay.key := d.key_lt_succDay h
    _ ≤ (d.succDay.addDays m).key := Date.key_le_addDays m _ (d.succDay_valid h)

theorem Date.addMonths_valid (d : Date) (n : Nat) (h : d.Valid) :
    (d.addMonths n).Valid := by
  obtain ⟨h1, h2, h3, h4⟩ := h
  have hm : (d.year * 12 + (d.month - 1) + n) % 12 < 12 := Nat.mod_lt _ (by omega)
  have hb := daysInMonth_bounds ((d.year * 12 + (d.month - 1) + n) % 12 + 1)
    ((d.year * 12 + (d.month - 1) + n) / 12)
  simp only [Date.addMonths]
  exact Date.valid_mk (by omega) (by omega)
    (Nat.le_min.mpr ⟨h3, by omega⟩) (Nat.min_le_right _ _)

theorem Date.key_lt_addMonths (d : Date) (n : Nat) (h : d.Valid) (hn : 1 ≤ n) :
    d.key < (d.addMonths n).key := by
  obtain ⟨h1, h2, h3, h4⟩ := h
  have hd := daysInMonth_bounds d.month d.year
  have he : 12 * ((d.year * 12 + (d.month - 1) + n) / 12)
      + (d.year * 12 + (d.month - 1) + n) % 12
      = d.year * 12 + (d.month - 1) + n := Nat.div_add_mod _ 12
  have hm : (d.year * 12 + (d.month - 1) + n) % 12 < 12 := Nat.mod_lt _ (by omega)
  have hmin : 1 ≤ min d.day (daysInMonth ((d.year * 12 + (d.month - 1) + n) % 12 + 1)
      ((d.year * 12 + (d.month - 1) + n) / 12)) := by
    have hb := daysInMonth_bounds ((d.year * 12 + (d.month - 1) + n) % 12 + 1)
      ((d.year * 12 + (d.month - 1) + n) / 12)
    exact Nat.le_min.mpr ⟨h3, by omega⟩
  simp only [Date.addMonths, Date.key_mk, Date.key]
  omega

theorem Date.addMonths_zero (d : Date) (h : d.Valid) : d.addMonths 0 = d := by
  obtain ⟨y, m, day⟩ := d
  rw [Date.valid_mk_iff] at h
  obtain ⟨h1, h2, h3, h4⟩ := h
  simp only [Date.addMonths, Date.mk.injEq, Nat.add_zero]
  have e3 : (y * 12 + (m - 1)) / 12 = y := by omega
  have e2 : (y * 12 + (m - 1)) % 12 + 1 = m := by omega
  rw [e2, e3]
  exact ⟨rfl, rfl, min_eq_left h4⟩

theorem Date.addYears_valid (d : Date) (n : Nat) (h : d.Valid) :
    (d.addYears n).Valid := by
  obtain ⟨h1, h2, h3, h4⟩ := h
  have hb := daysInMonth_bounds d.month (d.year + n)
  simp only [Date.addYears]
  exact Date.valid_mk h1 h2 (Nat.le_min.mpr ⟨h3, by omega⟩) (Nat.min_le_right _ _)

theorem Date.key_lt_addYears (d : Date) (n : Nat) (h : d.Valid) (hn : 1 ≤ n) :
    d.key < (d.addYears n).key := by
  obtain ⟨h1, h2, h3, h4⟩ := h
  have hd := daysInMonth_bounds d.month d.year
  have hmin : 1 ≤ min d.day (daysInMonth d.month (d.year + n)) := by
    have hb := daysInMonth_bounds d.month (d.year + n)
    exact Nat.le_min.mpr ⟨h3, by omega⟩
  simp only [Date.addYears, Date.key_mk, Date.key]
  omega

theorem Date.addYears_zero (d : Date) (h : d.Valid) : d.addYears 0 = d := by
  obtain ⟨y, m, day⟩ := d
  rw [Date.valid_mk_iff] at h
  obtain ⟨h1, h2, h3, h4⟩ := h
  simp only [Date.addYears, Nat.add_zero, Date.mk.injEq]
  exact ⟨trivial, trivial, min_eq_left h4⟩

theorem calc_next_valid (d : Date) (frequency : String) (n : Int)
    (h : d.Valid) (hf : ValidFrequency frequency) (hn : 1 ≤ n) :
    (calculate_next_occurrence d frequency n).Valid := by
  have hn0 : (0 : Int) ≤ n := by omega
  rcases hf with rfl | rfl | rfl | rfl
  · simpa [calculate_next_occurrence, Date.shiftDays, hn0] using
      Date.addDays_valid n.toNat d h
  · have h7 : (0 : Int) ≤ 7 * n := by omega
    simpa [calculate_next_occurrence, Date.shiftDays, h7] using
      Date.addDays_valid (7 * n).toNat d h
  · simpa [calculate_next_occurrence, Date.shiftMonths, hn0] using
      d.addMonths_valid n.toNat h
  · simpa [calculate_next_occurrence, Date.shiftYears, hn0] using
      d.addYears_valid n.toNat h

theorem calc_next_key_lt (d : Date) (frequency : String) (n : Int)
    (h : d.Valid) (hf : ValidFrequency frequency) (hn : 1 ≤ n) :
    d.key < (calculate_next_occurrence d frequency n).key := by
  have hn0 : (0 : Int) ≤ n := by omega
  have hn1 : 1 ≤ n.toNat := by omega
  rcases hf with rfl | rfl | rfl | rfl
  · simpa [calculate_next_occurrence, Date.shiftDays, hn0] using
      Date.key_lt_addDays n.toNat hn1 d h
  · have h7 : (0 : Int) ≤ 7 * n := by omega
    have h71 : 1 ≤ (7 * n).toNat := by omega
    simpa [calculate_next_occurrence, Date.shiftDays, h7] using
      Date.key_lt_addDays (7 * n).toNat h71 d h
  · simpa [calculate_next_occurrence, Date.shiftMonths, hn0] using
      d.key_lt_addMonths n.toNat h hn1
  · simpa [calculate_next_occurrence, Date.shiftYears, hn0] using
      d.key_lt_addYears n.toNat h hn1

theorem calc_next_zero (d : Date) (frequency : String) (h : d.Valid)
    (hf : ValidFrequency frequency) :
    calculate_next_occurrence d frequency 0 = d := by
  rcases hf with rfl | rfl | rfl | rfl
  · rfl
  · rfl
  · show d.addMonths 0 = d
    exact d.addMonths_zero h
  · show d.addYears 0 = d
    exact d.addYears_zero h

/-! ## Scanner lemmas -/

theorem processScan_noFail (today : Date) (ts : List RecurringTransaction) :
    processScan noFail today ts =
      Except.ok (ts.map (scanStep today),
        (ts.filter (isDue today)).map materializeTransaction,
        (ts.filter (isDue today)).length) := by
  induction ts with
  | nil => rfl
  | cons t rest ih =>
    by_cases h : isDue today t = true
    · simp [processScan, h, noFail, ih, scanStep, List.filter_cons]
    · simp [processScan, h, ih, scanStep, List.filter_cons]

theorem getD_map_of_lt {α β : Type} (f : α → β) :
    ∀ (l : List α) (i : Nat), i < l.length → ∀ (d : α) (d' : β),
      (l.map f).getD i d' = f (l.getD i d)
  | [], i, h, _, _ => absurd h (by simp)
  | _ :: _, 0, _, _, _ => rfl
  | _ :: l, i + 1, h, d, d' => getD_map_of_lt f l i (by simpa using h) d d'

theorem scanStep_frequency (today : Date) (t : RecurringTransaction) :
    (scanStep today t).frequency = t.frequency := by
  unfold scanStep advanceTemplate
  split <;> rfl

theorem scanStep_frequency_value (today : Date) (t : RecurringTransaction) :
    (scanStep today t).frequency_value = t.frequency_value := by
  unfold scanStep advanceTemplate
  split <;> rfl

theorem scanStep_start_date (today : Date) (t : RecurringTransaction) :
    (scanStep today t).start_date = t.start_date := by
  unfold scanStep advanceTemplate
  split <;> rfl

theorem scanStep_key_le (today : Date) (t : RecurringTransaction)
    (hf : ValidFrequency t.frequency) (hv : 1 ≤ t.frequency_value)
    (hvalid : t.next_occurrence.Valid) :
    t.next_occurrence.key ≤ (scanStep today t).next_occurrence.key := by
  unfold scanStep advanceTemplate
  split
  · exact Nat.le_of_lt
      (calc_next_key_lt t.next_occurrence t.frequency t.frequency_value hvalid hf hv)
  · exact Nat.le_refl _

theorem scanStep_valid (today : Date) (t : RecurringTransaction)
    (hf : ValidFrequency t.frequency) (hv : 1 ≤ t.frequency_value)
    (hvalid : t.next_occurrence.Valid) :
    (scanStep today t).next_occurrence.Valid := by
  unfold scanStep advanceTemplate
  split
  · exact calc_next_valid t.next_occurrence t.frequency t.frequency_value hvalid hf hv
  · exact hvalid

theorem runScans_inv (days : List Date) (t : RecurringTransaction)
    (hf : ValidFrequency t.frequency) (hv : 1 ≤ t.frequency_value)
    (hvalid : t.next_occurrence.Valid) :
    ValidFrequency (runScans days t).frequency ∧
    1 ≤ (runScans days t).frequency_value ∧
    (runScans days t).start_date = t.start_date ∧
    (runScans days t).next_occurrence.Valid ∧
    t.next_occurrence.key ≤ (runScans days t).next_occurrence.key := by
  induction days generalizing t with
  | nil => exact ⟨hf, hv, rfl, hvalid, Nat.le_refl _⟩
  | cons d days ih =>
    have hstep : runScans (d :: days) t = runScans days (scanStep d t) := rfl
    have hf' : ValidFrequency (scanStep d t).frequency := by
      rw [scanStep_frequency]; exact hf
    have hv' : 1 ≤ (scanStep d t).frequency_value := by
      rw [scanStep_frequency_value]; exact hv
    have hvalid' := scanStep_valid d t hf hv hvalid
    obtain ⟨i1, i2, i3, i4, i5⟩ := ih (scanStep d t) hf' hv' hvalid'
    rw [hstep]
    refine ⟨i1, i2, ?_, i4, ?_⟩
    · rw [i3, scanStep_start_date]
    · exact Nat.le_trans (scanStep_key_le d t hf hv hvalid) i5

theorem isDue_iff (today : Date) (t : RecurringTransaction) :
    isDue today t = true ↔ specSelected today t := by
  unfold isDue specSelected Date.ble Date.le
  rcases he : t.end_date with _ | e
  · simp [he, Bool.and_eq_true, decide_eq_true_iff]
  · simp [he, Bool.and_eq_true, decide_eq_true_iff, and_assoc]

theorem processScan_error_of_failing (fails : Transaction → Bool) (today : Date)
    (ts : List RecurringTransaction)
    (h : ∃ t ∈ ts, isDue today t = true ∧ fails (materializeTransaction t) = true) :
    ∃ e, processScan fails today ts = .error e ∧ isDue today e = true ∧
      fails (materializeTransaction e) = true := by
  induction ts with
  | nil => simp at h
  | cons t rest ih =>
    obtain ⟨t', ht', hdue, hfail⟩ := h
    by_cases hd : isDue today t = true
    · by_cases hfl : fails (materializeTransaction t) = true
      · exact ⟨t, by simp [processScan, hd, hfl], hd, hfl⟩
      · have hmem : t' ∈ rest := by
          rcases List.mem_cons.mp ht' with rfl | hm
          · exact absurd hfail hfl
          · exact hm
        obtain ⟨e, he, h1, h2⟩ := ih ⟨t', hmem, hdue, hfail⟩
        exact ⟨e, by simp [processScan, hd, hfl, he], h1, h2⟩
    · have hmem : t' ∈ rest := by
        rcases List.mem_cons.mp ht' with rfl | hm
        · exact absurd hdue hd
        · exact hm
      obtain ⟨e, he, h1, h2⟩ := ih ⟨t', hmem, hdue, hfail⟩
      exact ⟨e, by simp [processScan, hd, he], h1, h2⟩

/-! ## Client hook lemmas -/

theorem find?_cons_pos {α : Type} (p : α → Bool) (a : α) (l : List α)
    (h : p a = true) : (a :: l).find? p = some a := by
  simp [List.find?_cons, h]

theorem find?_cons_neg {α : Type} (p : α → Bool) (a : α) (l : List α)
    (h : p a = false) : (a :: l).find? p = l.find? p := by
  simp [List.find?_cons, h]

theorem find?_category_map_update (c : String) (v : Int) :
    ∀ (bs : List Budget) (b : Budget),
      bs.find? (fun bb => bb.category == c) = some b →
      (bs.map (fun bb => if bb.category == c then { bb with spent := v } else bb)).find?
          (fun bb => bb.category == c) = some { b with spent := v }
  | [], b, h => by simp at h
  | x :: rest, b, h => by
    by_cases hx : (x.category == c) = true
    · rw [find?_cons_pos (fun bb => bb.category == c) x rest hx] at h
      obtain rfl : x = b := Option.some.inj h
      rw [List.map_cons, if_pos hx]
      exact find?_cons_pos _ _ _ hx
    · have hx' : (x.category == c) = false := by
        simpa using hx
      rw [find?_cons_neg (fun bb => bb.category == c) x rest hx'] at h
      rw [List.map_cons, if_neg hx]
      rw [find?_cons_neg (fun bb => bb.category == c) x _ hx']
      exact find?_category_map_update c v rest b h

theorem deleteTransaction_budget_nonneg (s : BudgetState) (i : Nat) (b : Budget)
    (hmem : b ∈ ((deleteTransaction s i).1).budgets) :
    b ∈ s.budgets ∨ 0 ≤ b.spent := by
  rcases hfind : s.transactions.find? (fun t => t.id == i) with _ | tr
  · have hs : (deleteTransaction s i).1 = s := by
      unfold deleteTransaction
      rw [hfind]
    rw [hs] at hmem
    exact Or.inl hmem
  · by_cases hty : tr.ttype = TxType.expense
    · rcases hb : s.budgets.find? (fun bb => bb.category == tr.category) with _ | cb
      · have hbudg : (deleteTransaction s i).1.budgets = s.budgets := by
          simp [deleteTransaction, hfind, hty, hb]
        rw [hbudg] at hmem
        exact Or.inl hmem
      · have hbudg : (deleteTransaction s i).1.budgets =
            s.budgets.map (fun bb => if bb.category == tr.category
              then { bb with spent := max 0 (cb.spent - tr.amount) } else bb) := by
          simp [deleteTransaction, hfind, hty, hb]
        rw [hbudg] at hmem
        obtain ⟨a, ha, rfl⟩ := List.mem_map.mp hmem
        by_cases hc : (a.category == tr.category) = true
        · rw [if_pos hc]
          exact Or.inr (le_max_left _ _)
        · rw [if_neg hc]
          exact Or.inl ha
    · have hbudg : (deleteTransaction s i).1.budgets = s.budgets := by
        simp [deleteTransaction, hfind, hty]
      rw [hbudg] at hmem
      exact Or.inl hmem

theorem Date.addMonths_day_clamp (d : Date) (k : Nat)
    (h : daysInMonth (d.addMonths k).month (d.addMonths k).year < d.day) :
    (d.addMonths k).day = daysInMonth (d.addMonths k).month (d.addMonths k).year := by
  have e : (d.addMonths k).day
      = min d.day (daysInMonth (d.addMonths k).month (d.addMonths k).year) := rfl
  rw [e]
  exact min_eq_right (Nat.le_of_lt h)

theorem Date.addYears_day_clamp (d : Date) (k : Nat)
    (h : daysInMonth (d.addYears k).month (d.addYears k).year < d.day) :
    (d.addYears k).day = daysInMonth (d.addYears k).month (d.addYears k).year := by
  have e : (d.addYears k).day
      = min d.day (daysInMonth (d.addYears k).month (d.addYears k).year) := rfl
  rw [e]
  exact min_eq_right (Nat.le_of_lt h)

/-! ## Claim theorems -/

/-- C5: for every valid calendar date `d`, every frequency among daily,
weekly, monthly and yearly, and every positive interval `n`,
`calculate_next_occurrence d frequency n` is a date strictly after `d`. -/
theorem next_occurrence_strictly_after (d : Date) (frequency : String) (n : Int)
    (hd : d.Valid) (hf : ValidFrequency frequency) (hn : 1 ≤ n) :
    Date.lt d (calculate_next_occurrence d frequency n) :=
  calc_next_key_lt d frequency n hd hf hn

/-- Witness for C5 at date 2025-07-01, frequency daily, interval 2. -/
theorem next_occurrence_strictly_after_witness :
    Date.Valid ⟨2025, 7, 1⟩ ∧ ValidFrequency "daily" ∧ (1 : Int) ≤ 2 ∧
      Date.lt ⟨2025, 7, 1⟩ (calculate_next_occurrence ⟨2025, 7, 1⟩ "daily" 2) :=
  ⟨by decide, Or.inl rfl, by decide,
    next_occurrence_strictly_after ⟨2025, 7, 1⟩ "daily" 2 (by decide) (Or.inl rfl)
      (by decide)⟩

/-- C6: monthly and yearly advancement always produce a valid date and
normalize month-length overflow (a day-of-month that does not exist in the
target month is clamped to the last day of the target month); in particular
2024-01-31 advanced by one month is 2024-02-29, the last day of February
2024. -/
theorem monthly_yearly_overflow_clamped (d : Date) (n : Int)
    (hd : d.Valid) (hn : 1 ≤ n) :
    ((calculate_next_occurrence d "monthly" n).Valid ∧
      (daysInMonth (calculate_next_occurrence d "monthly" n).month
          (calculate_next_occurrence d "monthly" n).year < d.day →
        (calculate_next_occurrence d "monthly" n).day =
          daysInMonth (calculate_next_occurrence d "monthly" n).month
            (calculate_next_occurrence d "monthly" n).year)) ∧
    ((calculate_next_occurrence d "yearly" n).Valid ∧
      (daysInMonth (calculate_next_occurrence d "yearly" n).month
          (calculate_next_occurrence d "yearly" n).year < d.day →
        (calculate_next_occurrence d "yearly" n).day =
          daysInMonth (calculate_next_occurrence d "yearly" n).month
            (calculate_next_occurrence d "yearly" n).year)) ∧
    calculate_next_occurrence ⟨2024, 1, 31⟩ "monthly" 1 = ⟨2024, 2, 29⟩ ∧
    daysInMonth 2 2024 = 29 := by
  have hn0 : (0 : Int) ≤ n := by omega
  have hm : calculate_next_occurrence d "monthly" n = d.addMonths n.toNat := by
    simp [calculate_next_occurrence, Date.shiftMonths, hn0]
  have hy : calculate_next_occurrence d "yearly" n = d.addYears n.toNat := by
    simp [calculate_next_occurrence, Date.shiftYears, hn0]
  refine ⟨⟨?_, ?_⟩, ⟨?_, ?_⟩, by decide, by decide⟩
  · exact calc_next_valid d "monthly" n hd (Or.inr (Or.inr (Or.inl rfl))) hn
  · rw [hm]
    exact fun h => Date.addMonths_day_clamp d n.toNat h
  · exact calc_next_valid d "yearly" n hd (Or.inr (Or.inr (Or.inr rfl))) hn
  · rw [hy]
    exact fun h => Date.addYears_day_clamp d n.toNat h

/-- Witness for C6 at date 2024-01-31, interval 1. -/
theorem monthly_yearly_overflow_clamped_witness :
    Date.Valid ⟨2024, 1, 31⟩ ∧ (1 : Int) ≤ 1 ∧
    (((calculate_next_occurrence ⟨2024, 1, 31⟩ "monthly" 1).Valid ∧
      (daysInMonth (calculate_next_occurrence ⟨2024, 1, 31⟩ "monthly" 1).month
          (calculate_next_occurrence ⟨2024, 1, 31⟩ "monthly" 1).year <
            (⟨2024, 1, 31⟩ : Date).day →
        (calculate_next_occurrence ⟨2024, 1, 31⟩ "monthly" 1).day =
          daysInMonth (calculate_next_occurrence ⟨2024, 1, 31⟩ "monthly" 1).month
            (calculate_next_occurrence ⟨2024, 1, 31⟩ "monthly" 1).year)) ∧
    ((calculate_next_occurrence ⟨2024, 1, 31⟩ "yearly" 1).Valid ∧
      (daysInMonth (calculate_next_occurrence ⟨2024, 1, 31⟩ "yearly" 1).month
          (calculate_next_occurrence ⟨2024, 1, 31⟩ "yearly" 1).year <
            (⟨2024, 1, 31⟩ : Date).day →
        (calculate_next_occurrence ⟨2024, 1, 31⟩ "yearly" 1).day =
          daysInMonth (calculate_next_occurrence ⟨2024, 1, 31⟩ "yearly" 1).month
            (calculate_next_occurrence ⟨2024, 1, 31⟩ "yearly" 1).year)) ∧
    calculate_next_occurrence ⟨2024, 1, 31⟩ "monthly" 1 = ⟨2024, 2, 29⟩ ∧
    daysInMonth 2 2024 = 29) :=
  ⟨by decide, by decide, monthly_yearly_overflow_clamped ⟨2024, 1, 31⟩ 1
    (by decide) (by decide)⟩

/-- C3 counterexample: at reference date 2025-07-01, frequency "fortnightly"
and interval 1, the calculator returns the input date unchanged — the `ELSE`
branch of the `CASE`; no `InvalidFrequency` error exists in the code (the
function's result type is a date), refuting the claim that an unrecognized
frequency yields an error and never the unchanged input. -/
theorem invalid_frequency_counterexample :
    calculate_next_occurrence ⟨2025, 7, 1⟩ "fortnightly" 1 = ⟨2025, 7, 1⟩ := by
  decide

/-- C3 (amended): for every reference date and every interval, a frequency
outside {daily, weekly, monthly, yearly} makes the calculator silently return
the input date unchanged; no `InvalidFrequency` error is raised. -/
theorem invalid_frequency_returns_input (d : Date) (frequency : String) (n : Int)
    (h : ¬ ValidFrequency frequency) :
    calculate_next_occurrence d frequency n = d := by
  have h1 : ¬ frequency = "daily" := fun e => h (Or.inl e)
  have h2 : ¬ frequency = "weekly" := fun e => h (Or.inr (Or.inl e))
  have h3 : ¬ frequency = "monthly" := fun e => h (Or.inr (Or.inr (Or.inl e)))
  have h4 : ¬ frequency = "yearly" := fun e => h (Or.inr (Or.inr (Or.inr e)))
  simp [calculate_next_occurrence, h1, h2, h3, h4]

/-- Witness for the amended C3 at date 2030-01-15, frequency "fortnightly",
interval 5. -/
theorem invalid_frequency_returns_input_witness :
    ¬ ValidFrequency "fortnightly" ∧
      calculate_next_occurrence ⟨2030, 1, 15⟩ "fortnightly" 5 = ⟨2030, 1, 15⟩ :=
  ⟨by decide, invalid_frequency_returns_input ⟨2030, 1, 15⟩ "fortnightly" 5
    (by decide)⟩

/-- C9 counterexample: with frequency "daily" and interval 0 (which is ≤ 0)
the calculator returns a date — the unchanged input 2025-07-01 — rather than
an `InvalidInterval` error, refuting the claim. -/
theorem invalid_interval_counterexample :
    calculate_next_occurrence ⟨2025, 7, 1⟩ "daily" 0 = ⟨2025, 7, 1⟩ := by
  decide

/-- C9 (amended): the calculator performs no interval validation: for every
valid date and recognized frequency, interval 0 returns the input date
unchanged, and the function always returns a date; no `InvalidInterval`
error exists. -/
theorem nonpositive_interval_not_rejected (d : Date) (frequency : String)
    (hd : d.Valid) (hf : ValidFrequency frequency) :
    calculate_next_occurrence d frequency 0 = d :=
  calc_next_zero d frequency hd hf

/-- Witness for the amended C9 at date 2025-07-01, frequency weekly. -/
theorem nonpositive_interval_not_rejected_witness :
    Date.Valid ⟨2025, 7, 1⟩ ∧ ValidFrequency "weekly" ∧
      calculate_next_occurrence ⟨2025, 7, 1⟩ "weekly" 0 = ⟨2025, 7, 1⟩ :=
  ⟨by decide, Or.inr (Or.inl rfl),
    nonpositive_interval_not_rejected ⟨2025, 7, 1⟩ "weekly" (by decide)
      (Or.inr (Or.inl rfl))⟩

/-- C1: in a successful scan, the template list keeps its length and every
due template's new `next_occurrence` equals the occurrence calculator applied
to the template's current `next_occurrence` (with its frequency and
frequency value) — not to today's date — while non-due templates are left
unchanged; hence one scan advances a lagging template by exactly one cycle,
and an immediately repeated scan advances only the templates whose pointer is
still due. -/
theorem scan_advances_due_templates_one_cycle (today : Date)
    (ts ts' : List RecurringTransaction) (txs0 txs : List Transaction)
    (n i : Nat)
    (h : process_recurring_transactions noFail today ts txs0 =
      Except.ok (ts', txs, n))
    (hi : i < ts.length) :
    ts'.length = ts.length ∧
    ts'.getD i default =
      (if isDue today (ts.getD i default) = true
       then { ts.getD i default with
              next_occurrence := calculate_next_occurrence
                                   (ts.getD i default).next_occurrence
                                   (ts.getD i default).frequency
                                   (ts.getD i default).frequency_value }
       else ts.getD i default) := by
  unfold process_recurring_transactions at h
  rw [processScan_noFail] at h
  simp only [Except.ok.injEq, Prod.mk.injEq] at h
  obtain ⟨h1, h2, h3⟩ := h
  subst h1
  constructor
  · simp
  · rw [getD_map_of_lt (scanStep today) ts i hi default default]
    rfl

/-- Witness for C1: one daily template five days behind the scan date
2025-07-15 advances by exactly one day, to 2025-07-11. -/
theorem scan_advances_due_templates_one_cycle_witness :
    process_recurring_transactions noFail ⟨2025, 7, 15⟩ [pastDailyTemplate] [] =
      Except.ok ([{ pastDailyTemplate with next_occurrence := ⟨2025, 7, 11⟩ }],
        [materializeTransaction pastDailyTemplate], 1) ∧
    0 < [pastDailyTemplate].length ∧
    ([{ pastDailyTemplate with next_occurrence := ⟨2025, 7, 11⟩ }].length =
        [pastDailyTemplate].length ∧
      [{ pastDailyTemplate with next_occurrence := ⟨2025, 7, 11⟩ }].getD 0 default =
        (if isDue ⟨2025, 7, 15⟩ ([pastDailyTemplate].getD 0 default) = true
         then { [pastDailyTemplate].getD 0 default with
                next_occurrence := calculate_next_occurrence
                                     ([pastDailyTemplate].getD 0 default).next_occurrence
                                     ([pastDailyTemplate].getD 0 default).frequency
                                     ([pastDailyTemplate].getD 0 default).frequency_value }
         else [pastDailyTemplate].getD 0 default)) :=
  ⟨by decide, by decide,
    scan_advances_due_templates_one_cycle ⟨2025, 7, 15⟩ [pastDailyTemplate]
      [{ pastDailyTemplate with next_occurrence := ⟨2025, 7, 11⟩ }] []
      [materializeTransaction pastDailyTemplate] 1 0 (by decide) (by decide)⟩

/-- C2: in a successful scan, the materialized transactions and the processed
count range exactly over the templates passing the `isDue` filter; `isDue`
agrees with the spec predicate (`isActive = true` and `nextOccurrence <=
today` and (`endDate` unset or `nextOccurrence <= endDate`)); and every
non-selected template — in particular an active one whose `nextOccurrence`
is past its `endDate` — is left unchanged with no transaction materialized
for it. -/
theorem scan_selection_predicate (today : Date)
    (ts ts' : List RecurringTransaction) (txs0 txs : List Transaction)
    (n i : Nat)
    (h : process_recurring_transactions noFail today ts txs0 =
      Except.ok (ts', txs, n))
    (hi : i < ts.length) :
    txs = txs0 ++ (ts.filter (isDue today)).map materializeTransaction ∧
    n = (ts.filter (isDue today)).length ∧
    (isDue today (ts.getD i default) = true ↔
      specSelected today (ts.getD i default)) ∧
    (isDue today (ts.getD i default) = false →
      ts'.getD i default = ts.getD i default) := by
  unfold process_recurring_transactions at h
  rw [processScan_noFail] at h
  simp only [Except.ok.injEq, Prod.mk.injEq] at h
  obtain ⟨h1, h2, h3⟩ := h
  refine ⟨h2.symm, h3.symm, isDue_iff today _, ?_⟩
  intro hfalse
  rw [← h1, getD_map_of_lt (scanStep today) ts i hi default default]
  unfold scanStep
  rw [hfalse]
  simp

/-- Witness for C2: an active template whose `next_occurrence` (2025-07-10)
is past its `end_date` (2025-07-05) is not selected on 2025-07-15: no
transaction is produced, the count is 0 and the template is unchanged. -/
theorem scan_selection_predicate_witness :
    process_recurring_transactions noFail ⟨2025, 7, 15⟩ [endedTemplate] [] =
      Except.ok ([endedTemplate], [], 0) ∧
    0 < [endedTemplate].length ∧
    (([] : List Transaction) =
        [] ++ ([endedTemplate].filter (isDue ⟨2025, 7, 15⟩)).map
          materializeTransaction ∧
      0 = ([endedTemplate].filter (isDue ⟨2025, 7, 15⟩)).length ∧
      (isDue ⟨2025, 7, 15⟩ ([endedTemplate].getD 0 default) = true ↔
        specSelected ⟨2025, 7, 15⟩ ([endedTemplate].getD 0 default)) ∧
      (isDue ⟨2025, 7, 15⟩ ([endedTemplate].getD 0 default) = false →
        [endedTemplate].getD 0 default = [endedTemplate].getD 0 default)) :=
  ⟨by decide, by decide,
    scan_selection_predicate ⟨2025, 7, 15⟩ [endedTemplate] [endedTemplate] []
      [] 0 0 (by decide) (by decide)⟩

/-- C4 counterexample: with a store that rejects the materialized "Rent"
transaction, a scan over two due templates — the failing one first — aborts
with an error: the call returns no ok-result at all, the second due template
is not processed, and nothing is committed (the plpgsql function has no
per-template exception handling, so the enclosing statement rolls back).
This refutes the claim that a per-template failure leaves the other due
templates processed. -/
theorem scan_failure_isolation_counterexample :
    process_recurring_transactions (fun tx => tx.category == "Rent")
      ⟨2025, 8, 1⟩ [rentTemplate, salaryTemplate] [] =
      Except.error rentTemplate := by
  decide

/-- C4 (amended): a failure materializing any due template aborts the whole
scan: the call reports the error of a failing due template and produces no
ok-result, so no other template is processed and no partial effects are
kept. -/
theorem scan_failure_aborts_whole_scan (fails : Transaction → Bool)
    (today : Date) (ts : List RecurringTransaction) (txs0 : List Transaction)
    (h : ∃ t ∈ ts, isDue today t = true ∧
      fails (materializeTransaction t) = true) :
    ∃ e, process_recurring_transactions fails today ts txs0 = Except.error e ∧
      isDue today e = true ∧ fails (materializeTransaction e) = true := by
  obtain ⟨e, he, h1, h2⟩ := processScan_error_of_failing fails today ts h
  exact ⟨e, by simp [process_recurring_transactions, he], h1, h2⟩

/-- Witness for the amended C4: a store rejecting amount-99 transactions
makes the scan over the due fee template abort with an error. -/
theorem scan_failure_aborts_whole_scan_witness :
    (∃ t ∈ [fee99Template], isDue ⟨2025, 9, 1⟩ t = true ∧
        (fun tx => tx.amount == 99) (materializeTransaction t) = true) ∧
    ∃ e, process_recurring_transactions (fun tx => tx.amount == 99)
        ⟨2025, 9, 1⟩ [fee99Template] [] = Except.error e ∧
      isDue ⟨2025, 9, 1⟩ e = true ∧
      (fun tx => tx.amount == 99) (materializeTransaction e) = true :=
  ⟨by decide,
    scan_failure_aborts_whole_scan (fun tx => tx.amount == 99) ⟨2025, 9, 1⟩
      [fee99Template] [] (by decide)⟩

/-- C7: adding an expense of amount `A` in a category with an existing budget
increases that budget's `spent` by exactly `A`; deleting that transaction
decreases it by `A` floored at zero; repeating the delete is a no-op; and the
post-delete `spent` is never negative. -/
theorem budget_spent_add_then_delete (s : BudgetState) (tx : Transaction)
    (b : Budget)
    (hty : tx.ttype = TxType.expense)
    (hb : s.budgets.find? (fun bb => bb.category == tx.category) = some b)
    (hfresh : ∀ t ∈ s.transactions, (t.id == tx.id) = false) :
    (addTransaction s tx).budgets.find? (fun bb => bb.category == tx.category) =
        some { b with spent := b.spent + tx.amount } ∧
    (deleteTransaction (addTransaction s tx) tx.id).1.budgets.find?
        (fun bb => bb.category == tx.category) =
      some { b with spent := max 0 (b.spent + tx.amount - tx.amount) } ∧
    deleteTransaction (deleteTransaction (addTransaction s tx) tx.id).1 tx.id =
      ((deleteTransaction (addTransaction s tx) tx.id).1, []) ∧
    0 ≤ max 0 (b.spent + tx.amount - tx.amount) := by
  have e1b : (addTransaction s tx).budgets =
      s.budgets.map (fun bb => if bb.category == tx.category
        then { bb with spent := b.spent + tx.amount } else bb) := by
    simp [addTransaction, hty, hb]
  have e1t : (addTransaction s tx).transactions = tx :: s.transactions := by
    simp [addTransaction, hty, hb]
  have c1 : (addTransaction s tx).budgets.find?
      (fun bb => bb.category == tx.category) =
      some { b with spent := b.spent + tx.amount } := by
    rw [e1b]
    exact find?_category_map_update tx.category _ s.budgets b hb
  have hfind1 : (addTransaction s tx).transactions.find?
      (fun t => t.id == tx.id) = some tx := by
    rw [e1t]
    exact find?_cons_pos _ _ _ (by simp)
  have hfilter : (addTransaction s tx).transactions.filter
      (fun t => t.id != tx.id) = s.transactions := by
    rw [e1t]
    rw [show List.filter (fun t => t.id != tx.id) (tx :: s.transactions)
        = List.filter (fun t => t.id != tx.id) s.transactions from by simp]
    exact List.filter_eq_self.mpr (fun t ht => by simp [bne, hfresh t ht])
  have e2 : deleteTransaction (addTransaction s tx) tx.id =
      ({ transactions := s.transactions,
         budgets := (addTransaction s tx).budgets.map
           (fun bb => if bb.category == tx.category
             then { bb with spent := max 0 (b.spent + tx.amount - tx.amount) }
             else bb) },
       [Effect.storeDeleteTransaction tx.id,
        Effect.storeUpdateBudgetSpent tx.category
          (max 0 (b.spent + tx.amount - tx.amount)),
        Effect.toastSuccess]) := by
    simp [deleteTransaction, hfind1, hty, c1, hfilter]
  have c2 : (deleteTransaction (addTransaction s tx) tx.id).1.budgets.find?
      (fun bb => bb.category == tx.category) =
      some { b with spent := max 0 (b.spent + tx.amount - tx.amount) } := by
    rw [e2]
    exact find?_category_map_update tx.category _ (addTransaction s tx).budgets
      { b with spent := b.spent + tx.amount } c1
  have hnone : s.transactions.find? (fun t => t.id == tx.id) = none :=
    List.find?_eq_none.mpr (fun t ht => by simp [hfresh t ht])
  have ht2 : (deleteTransaction (addTransaction s tx) tx.id).1.transactions
      = s.transactions := by
    rw [e2]
  have c3 : ∀ X : BudgetState, X.transactions = s.transactions →
      deleteTransaction X tx.id = (X, []) := by
    intro X hXt
    unfold deleteTransaction
    rw [hXt, hnone]
  exact ⟨c1, c2, c3 _ ht2, le_max_left _ _⟩

/-- Witness for C7: a 50 expense in category "Food" against a budget with 500
spent; `spent` becomes 550 after the add and `max 0 (550 - 50) = 500` after
the delete, and a second delete is a no-op. -/
theorem budget_spent_add_then_delete_witness :
    foodExpense.ttype = TxType.expense ∧
    foodState.budgets.find? (fun bb => bb.category == foodExpense.category) =
      some { id := 1, category := "Food", limit := 800, spent := 500,
             period := "monthly" } ∧
    ((addTransaction foodState foodExpense).budgets.find?
        (fun bb => bb.category == foodExpense.category) =
      some { id := 1, category := "Food", limit := 800, spent := 500 + 50,
             period := "monthly" } ∧
    (deleteTransaction (addTransaction foodState foodExpense)
        foodExpense.id).1.budgets.find?
        (fun bb => bb.category == foodExpense.category) =
      some { id := 1, category := "Food", limit := 800,
             spent := max 0 (500 + 50 - 50), period := "monthly" } ∧
    deleteTransaction
        (deleteTransaction (addTransaction foodState foodExpense)
          foodExpense.id).1 foodExpense.id =
      ((deleteTransaction (addTransaction foodState foodExpense)
          foodExpense.id).1, []) ∧
    (0 : Int) ≤ max 0 (500 + 50 - 50)) :=
  ⟨by decide, by decide,
    budget_spent_add_then_delete foodState foodExpense
      { id := 1, category := "Food", limit := 800, spent := 500,
        period := "monthly" }
      (by decide) (by decide) (by decide)⟩

/-- C10: calling `deleteTransaction` with an id absent from the loaded
transaction list is a silent no-op — the state is unchanged and no effect
(store call or toast) is produced. -/
theorem deleteTransaction_missing_id_noop (s : BudgetState) (i : Nat)
    (h : s.transactions.find? (fun t => t.id == i) = none) :
    deleteTransaction s i = (s, []) := by
  unfold deleteTransaction
  rw [h]

/-- Witness for C10: deleting id 99 from a state whose only transaction has
id 1 changes nothing and emits no effect. -/
theorem deleteTransaction_missing_id_noop_witness :
    incomeState.transactions.find? (fun t => t.id == 99) = none ∧
    deleteTransaction incomeState 99 = (incomeState, []) :=
  ⟨by decide, deleteTransaction_missing_id_noop incomeState 99 (by decide)⟩

/-- C8: for a template with a recognized frequency, interval ≥ 1, a valid
`next_occurrence` at least its (valid) `start_date`: the seeded
`next_occurrence` at creation is at least `start_date`; after any sequence of
scans `next_occurrence` is still at least `start_date`, still a valid date,
and never below its earlier value; and whenever the template is due (about to
be materialized), the scan strictly increases `next_occurrence` — so the
pointer never regresses and never repeats a value across materializations. -/
theorem template_next_occurrence_invariant (t : RecurringTransaction)
    (days : List Date) (today : Date) (rpcOk : Bool)
    (hf : ValidFrequency t.frequency) (hv : 1 ≤ t.frequency_value)
    (hvalid : t.next_occurrence.Valid)
    (hstart : Date.le t.start_date t.next_occurrence)
    (hsv : t.start_date.Valid) :
    Date.le t.start_date
        (seedNextOccurrence t.start_date t.frequency t.frequency_value rpcOk) ∧
    Date.le t.start_date (runScans days t).next_occurrence ∧
    (runScans days t).next_occurrence.Valid ∧
    Date.le t.next_occurrence (runScans days t).next_occurrence ∧
    (isDue today (runScans days t) = true →
      Date.lt (runScans days t).next_occurrence
        (scanStep today (runScans days t)).next_occurrence) := by
  obtain ⟨i1, i2, i3, i4, i5⟩ := runScans_inv days t hf hv hvalid
  refine ⟨?_, ?_, i4, i5, ?_⟩
  · unfold seedNextOccurrence
    split
    · exact Nat.le_of_lt
        (calc_next_key_lt t.start_date t.frequency t.frequency_value hsv hf hv)
    · exact Nat.le_refl _
  · exact Nat.le_trans hstart i5
  · intro hdue
    have hlt := calc_next_key_lt (runScans days t).next_occurrence
      (runScans days t).frequency (runScans days t).frequency_value i4 i1 i2
    unfold scanStep
    rw [if_pos hdue]
    exact hlt

/-- Witness for C8: a daily template starting 2025-07-01 with pointer
2025-07-10, scanned on 2025-07-12 and 2025-07-20, keeps a valid,
non-regressing pointer at least its start date and strictly advances when
due on 2025-07-20. -/
theorem template_next_occurrence_invariant_witness :
    ValidFrequency savingsTemplate.frequency ∧
    1 ≤ savingsTemplate.frequency_value ∧
    savingsTemplate.next_occurrence.Valid ∧
    Date.le savingsTemplate.start_date savingsTemplate.next_occurrence ∧
    savingsTemplate.start_date.Valid ∧
    (Date.le savingsTemplate.start_date
        (seedNextOccurrence savingsTemplate.start_date savingsTemplate.frequency
          savingsTemplate.frequency_value true) ∧
      Date.le savingsTemplate.start_date
        (runScans [⟨2025, 7, 12⟩, ⟨2025, 7, 20⟩] savingsTemplate).next_occurrence ∧
      (runScans [⟨2025, 7, 12⟩, ⟨2025, 7, 20⟩] savingsTemplate).next_occurrence.Valid ∧
      Date.le savingsTemplate.next_occurrence
        (runScans [⟨2025, 7, 12⟩, ⟨2025, 7, 20⟩] savingsTemplate).next_occurrence ∧
      (isDue ⟨2025, 7, 20⟩ (runScans [⟨2025, 7, 12⟩, ⟨2025, 7, 20⟩] savingsTemplate) = true →
        Date.lt (runScans [⟨2025, 7, 12⟩, ⟨2025, 7, 20⟩] savingsTemplate).next_occurrence
          (scanStep ⟨2025, 7, 20⟩
            (runScans [⟨2025, 7, 12⟩, ⟨2025, 7, 20⟩] savingsTemplate)).next_occurrence)) :=
  ⟨by decide, by decide, by decide, by decide, by decide,
    template_next_occurrence_invariant savingsTemplate
      [⟨2025, 7, 12⟩, ⟨2025, 7, 20⟩] ⟨2025, 7, 20⟩ true
      (by decide) (by decide) (by decide) (by decide) (by decide)⟩

end BudgetWise
